import Mathlib

/-!
Verification of the myTIME Dojo Bridge session orchestrator
(src/services/bridge/bridge.py).

Shallow embedding conventions:
* Wall-clock timestamps (Python `time.time()` floats) are rationals `ℚ`.
* Python `int(x)` truncation toward zero is `pyInt`.
* Python truthiness of the nullable float `barge_in_time`
  (`if self.barge_in_time:`) is `qTruthy`: `None` and `0.0` are falsy.
* `asyncio.Event` is a `Bool` field (`cancel_event` for `_cancel_event`);
  concurrent sets from a notional barge-in during a stream are an external
  per-chunk schedule `ext : Nat → Bool` checked at chunk granularity.
* HTTP upstreams (triage, actor, ElevenLabs, Steward) are oracles carried in
  an `Env`: `Except.error` models a raised exception (`raise_for_status`,
  network failure, or `HTTPException`), `Except.ok` a successful response.
* Audio chunks are abstract tokens (`Nat`).
-/

namespace DojoBridge

/-- Python `int(x)` on a float: truncation toward zero, modelled on `ℚ`. -/
def pyInt (x : ℚ) : ℤ :=
  if 0 ≤ x.num then ((x.num.toNat / x.den : ℕ) : ℤ)
  else -(((-x.num).toNat / x.den : ℕ) : ℤ)

/-- Python truthiness of the nullable timestamp `self.barge_in_time`:
`None` is falsy and so is the float `0.0`. -/
def qTruthy : Option ℚ → Bool
  | none => false
  | some t => t != 0

/-- `CombatSession` (bridge.py lines 72-118): per-WebSocket session state. -/
structure CombatSession where
  session_id : String
  mode : String
  user_id : String
  caller_number : String
  persona : String
  start_time : ℚ
  barge_in_time : Option ℚ
  live_seconds : ℚ
  auto_seconds : ℚ
  is_active : Bool
  cancel_event : Bool
deriving DecidableEq

/-- `CombatSession.__init__` (lines 75-86); `sid` stands for the generated
uuid and `now` for `time.time()` at creation. -/
def CombatSession.init (sid : String) (now : ℚ) : CombatSession :=
  { session_id := sid
    mode := "auto"
    user_id := "anonymous"
    caller_number := "unknown"
    persona := "hazel"
    start_time := now
    barge_in_time := none
    live_seconds := 0
    auto_seconds := 0
    is_active := false
    cancel_event := false }

/-- `CombatSession.barge_in` (lines 88-94): `if user_id:` only replaces
`user_id` when the argument is present and non-empty (Python truthiness);
then `mode = "live"`, `barge_in_time = time.time()`, `_cancel_event.set()`. -/
def CombatSession.barge_in (s : CombatSession) (now : ℚ) (uid : Option String) :
    CombatSession :=
  { s with
    user_id := match uid with
      | some u => if u = "" then s.user_id else u
      | none => s.user_id
    mode := "live"
    barge_in_time := some now
    cancel_event := true }

/-- The interval-closing prologue shared verbatim by `barge_out`
(lines 97-99) and `end` (lines 105-107):
`if self.barge_in_time: self.live_seconds += time.time() - self.barge_in_time;
self.barge_in_time = None`. -/
def CombatSession.closeLive (s : CombatSession) (now : ℚ) : CombatSession :=
  if qTruthy s.barge_in_time then
    { s with
      live_seconds := s.live_seconds + (now - s.barge_in_time.getD 0)
      barge_in_time := none }
  else s

/-- `CombatSession.barge_out` (lines 96-102): close the open interval (if
truthy), `mode = "auto"`, `_cancel_event.clear()`. -/
def CombatSession.barge_out (s : CombatSession) (now : ℚ) : CombatSession :=
  { s.closeLive now with mode := "auto", cancel_event := false }

/-- `CombatSession.end` (lines 104-110): close the open interval, then
`total = time.time() - self.start_time`,
`self.auto_seconds = total - self.live_seconds`, `self.is_active = False`.
(`end` is a Lean keyword, hence the name `endSession`.) -/
def CombatSession.endSession (s : CombatSession) (now : ℚ) : CombatSession :=
  let s1 := s.closeLive now
  { s1 with
    auto_seconds := (now - s1.start_time) - s1.live_seconds
    is_active := false }

/-- `CombatSession.cancelled` property (lines 112-114). -/
def CombatSession.cancelled (s : CombatSession) : Bool := s.cancel_event

/-- `CombatSession.total_duration` property (lines 116-118):
`int(time.time() - self.start_time)`. -/
def CombatSession.total_duration (s : CombatSession) (now : ℚ) : ℤ :=
  pyInt (now - s.start_time)

/-- Abstract binary audio chunk. -/
abbrev Chunk := Nat

/-- `elevenlabs_tts_stream` chunk loop (lines 155-159): before yielding the
chunk fetched at check-index `i`, test the cancel signal (`sig i`); if set,
return immediately, else yield and continue.  `sig` gives the state of the
session's `_cancel_event` at the `i`-th per-chunk check. -/
def elevenlabs_tts_stream (sig : Nat → Bool) : List Chunk → Nat → List Chunk
  | [], _ => []
  | c :: rest, i =>
    if sig i then [] else c :: elevenlabs_tts_stream sig rest (i + 1)

/-- The JSON payload built by `score_session` (lines 192-198). -/
structure ScorePayload where
  user_id : String
  session_id : String
  duration_seconds : ℤ
  mode : String
  scam_type : String
deriving DecidableEq

/-- Payload construction inside `score_session` (lines 192-198):
`"mode": "live" if session.live_seconds > 0 else "auto"`. -/
def score_payload (s : CombatSession) (now : ℚ) : ScorePayload :=
  { user_id := s.user_id
    session_id := s.session_id
    duration_seconds := s.total_duration now
    mode := if 0 < s.live_seconds then "live" else "auto"
    scam_type := "combat_ring" }

/-- `score_session` (lines 184-210): submits the payload to the Steward;
a non-200 response or any exception is logged and swallowed - the function
always returns normally (`Option`, never an exception).  `resp` is the
Steward oracle: `Except.error` covers both an unreachable Steward and a
non-200 status. -/
def score_session (s : CombatSession) (now : ℚ) (resp : Except String String) :
    ScorePayload × Option String :=
  (score_payload s now,
   match resp with
   | .ok r => some r
   | .error _ => none)

/-- Observable output of the orchestrator, in emission order. -/
inductive Event
  | json (tag : String)
  | audio (c : Chunk)
  | errorEvent (msg : String)
  | streamOpen
  | scoreSubmit (p : ScorePayload)
deriving DecidableEq

/-- A parsed control message (ws_audio_stream protocol, lines 267-272). -/
inductive Msg
  | barge_in (uid : Option String)
  | barge_out (persona : Option String)
  | end_session
  | combat (caller transcript persona : String)
  | tts (text : String)
deriving DecidableEq

/-- Per-message environment: the wall clock and the upstream oracles consumed
while handling one message.  `ext i` is whether a concurrent barge-in has set
the cancel event by the time of the `i`-th per-chunk check of this message's
stream; `newSid` is the uuid of the replacement session created after
`end_session`. -/
structure Env where
  now : ℚ
  triage : Except String String
  actor : Except String String
  chunks : Except String (List Chunk)
  ext : Nat → Bool
  steward : Except String String
  newSid : String

/-- Monotone (threshold) cancel schedule: the signal is set from the `k`-th
per-chunk check onward.  Every monotone Bool-valued schedule on `Nat` has
this shape (or is constantly false). -/
def setFrom (k : Nat) : Nat → Bool := fun i => decide (k ≤ i)

/-- Lines 381-391 of `ws_audio_stream`: `session._cancel_event.clear()`,
stream the chunks through `elevenlabs_tts_stream` feeding each as a binary
frame, then report `stream_interrupted` if `session.cancelled` else `done`. -/
def speakPhase (s : CombatSession) (cs : List Chunk) (ext : Nat → Bool) :
    CombatSession × List Event :=
  let s1 := { s with cancel_event := false }
  let sig := fun i => s1.cancel_event || ext i
  let fwd := elevenlabs_tts_stream sig cs 0
  let s2 := { s1 with cancel_event := sig fwd.length }
  (s2,
   Event.streamOpen :: fwd.map Event.audio ++
     [if s2.cancelled then Event.json "stream_interrupted"
      else Event.json "done"])

/-- One iteration of the `ws_audio_stream` message loop (lines 290-391):
dispatch on the action, mutate the session, emit events.  The result's
second component is `Except.error e` when an exception escapes the handling
of this message (triage/actor `raise_for_status`, ElevenLabs `HTTPException`
before any chunk); events already emitted are kept (they were sent). -/
def handleMsg (cfg : Bool) (s : CombatSession) (m : Msg) (env : Env) :
    List Event × Except String CombatSession :=
  match m with
  | .barge_in uid =>
      ([Event.json "barge_in_ack"], .ok (s.barge_in env.now uid))
  | .barge_out p =>
      let s1 := s.barge_out env.now
      let s2 := { s1 with persona := p.getD s1.persona }
      ([Event.json "barge_out_ack"], .ok s2)
  | .end_session =>
      let s1 := s.endSession env.now
      let score := score_session s1 env.now env.steward
      ([Event.scoreSubmit score.1, Event.json "session_scored"],
       .ok { CombatSession.init env.newSid env.now with is_active := true })
  | .combat caller _transcript persona =>
      if cfg then
        let s1 := { s with caller_number := caller, persona := persona }
        match env.triage with
        | .error e => ([], .error e)
        | .ok _tri =>
          match env.actor with
          | .error e => ([], .error e)
          | .ok actor_text =>
            if actor_text = "" then
              ([Event.json "streaming", Event.errorEvent "No text provided"],
               .ok s1)
            else
              match env.chunks with
              | .error e => ([Event.json "streaming"], .error e)
              | .ok cs =>
                let r := speakPhase s1 cs env.ext
                (Event.json "streaming" :: r.2, .ok r.1)
      else ([Event.errorEvent "ElevenLabs not configured"], .ok s)
  | .tts text =>
      if cfg then
        if text = "" then
          ([Event.errorEvent "No text provided"], .ok s)
        else
          match env.chunks with
          | .error e => ([], .error e)
          | .ok cs =>
            let r := speakPhase s cs env.ext
            (r.2, .ok r.1)
      else ([Event.errorEvent "ElevenLabs not configured"], .ok s)

/-- `ws_audio_stream` (lines 262-403): process the message list in order.
The whole `while True` loop sits inside one `try`: when a handler raises,
the outer `except Exception` sends `{"error": ...}` and the coroutine
returns - no further message is read.  Exhausting the list models
`WebSocketDisconnect`: if the session is still active, implicit
`session.end()` plus a best-effort `score_session` (lines 393-397). -/
def ws_audio_stream (cfg : Bool) :
    CombatSession → List (Msg × Env) → ℚ → Except String String → List Event
  | s, [], dnow, dresp =>
      if s.is_active then
        let s1 := s.endSession dnow
        let score := score_session s1 dnow dresp
        [Event.scoreSubmit score.1]
      else []
  | s, (m, env) :: rest, dnow, dresp =>
      match handleMsg cfg s m env with
      | (evs, .ok s1) => evs ++ ws_audio_stream cfg s1 rest dnow dresp
      | (evs, .error e) => evs ++ [Event.errorEvent e]

/-- A session-state operation, for reasoning over operation sequences. -/
inductive SessionOp
  | bargeIn (uid : Option String)
  | bargeOut
  | endOp
deriving DecidableEq

/-- Apply one state-machine operation at time `t`. -/
def applyOp (s : CombatSession) : SessionOp → ℚ → CombatSession
  | .bargeIn uid, t => s.barge_in t uid
  | .bargeOut, t => s.barge_out t
  | .endOp, t => s.endSession t

/-- Run a timed operation sequence. -/
def runOps (s : CombatSession) : List (SessionOp × ℚ) → CombatSession
  | [] => s
  | (op, t) :: rest => runOps (applyOp s op t) rest

/-- Timestamps are non-decreasing and positive (wall-clock time). -/
def timesOk (t : ℚ) : List (SessionOp × ℚ) → Bool
  | [] => true
  | (_, t1) :: rest => decide (t ≤ t1) && decide (0 < t1) && timesOk t1 rest

/-- The time of the last operation (or the given origin). -/
def finalTime (t : ℚ) : List (SessionOp × ℚ) → ℚ
  | [] => t
  | (_, t1) :: rest => finalTime t1 rest

/-- Sample session/environment constants used by concrete evaluations. -/
def sessionActive : CombatSession :=
  { CombatSession.init "sid-1" 1 with is_active := true }

/-- Environment whose triage oracle raises (connect timeout). -/
def envTriageFail : Env :=
  { now := 10
    triage := .error "triage down"
    actor := .ok "hello there"
    chunks := .ok [1, 2, 3]
    ext := fun _ => false
    steward := .ok "scored"
    newSid := "sid-2" }

/-- Fully healthy environment. -/
def envOk : Env :=
  { now := 11
    triage := .ok "scam_likely"
    actor := .ok "hello there"
    chunks := .ok [1, 2, 3]
    ext := fun _ => false
    steward := .ok "scored"
    newSid := "sid-3" }

/-- Healthy environment whose persona response is empty. -/
def envEmptyActor : Env := { envOk with actor := .ok "" }

/-- Healthy environment with a concurrent barge-in setting the cancel signal
from the second per-chunk check onward. -/
def envCancelAt1 : Env := { envOk with ext := setFrom 1 }

/-- Active session created at time 1 with a Live interval open since time 2. -/
def sessionLive : CombatSession :=
  { CombatSession.init "sid-live" 1 with
    is_active := true
    mode := "live"
    barge_in_time := some 2 }

/-- Active session whose cancel signal is still set from a prior barge-in. -/
def sessionCancelled : CombatSession :=
  { CombatSession.init "sid-c" 1 with is_active := true, cancel_event := true }

/-- Session time-accounting invariant at wall-clock time `t`: the session
started no later than `t`; the accumulated `live_seconds` (plus the currently
open interval, if one is open) fits within the elapsed time, and an open
interval began at a positive time no later than `t`. -/
def Inv (s : CombatSession) (t : ℚ) : Prop :=
  s.start_time ≤ t ∧
  ((s.barge_in_time = none ∧ s.live_seconds ≤ t - s.start_time) ∨
   (∃ b, s.barge_in_time = some b ∧ 0 < b ∧ b ≤ t ∧
      s.live_seconds + (t - b) ≤ t - s.start_time))

/-! ## Helper lemmas -/

theorem pyInt_nonneg_eq (x : ℚ) (hx : 0 ≤ x) :
    pyInt x = ((x.num.toNat / x.den : ℕ) : ℤ) := by
  have hnum : 0 ≤ x.num := Rat.num_nonneg.mpr hx
  simp [pyInt, hnum]

theorem rat_toNat_div_den (x : ℚ) (hx : 0 ≤ x) :
    ((x.num.toNat : ℚ)) / ((x.den : ℚ)) = x := by
  have hnum : 0 ≤ x.num := Rat.num_nonneg.mpr hx
  rw [show ((x.num.toNat : ℚ)) = ((x.num : ℤ) : ℚ) by
    exact_mod_cast congrArg (fun z => ((z : ℤ) : ℚ)) (Int.toNat_of_nonneg hnum)]
  exact Rat.num_div_den x

theorem pyInt_le_self (x : ℚ) (hx : 0 ≤ x) : (pyInt x : ℚ) ≤ x := by
  rw [pyInt_nonneg_eq x hx]
  have hd : (0 : ℚ) < (x.den : ℚ) := by exact_mod_cast x.den_pos
  calc ((((x.num.toNat / x.den : ℕ) : ℤ)) : ℚ)
      = ((x.num.toNat / x.den : ℕ) : ℚ) := by norm_cast
    _ ≤ (x.num.toNat : ℚ) / (x.den : ℚ) := by
        rw [le_div_iff₀ hd]
        exact_mod_cast Nat.div_mul_le_self x.num.toNat x.den
    _ = x := rat_toNat_div_den x hx

theorem lt_pyInt_add_one (x : ℚ) (hx : 0 ≤ x) : x < (pyInt x : ℚ) + 1 := by
  rw [pyInt_nonneg_eq x hx]
  have hdpos : 0 < x.den := x.den_pos
  have hd : (0 : ℚ) < (x.den : ℚ) := by exact_mod_cast hdpos
  have hnat : x.num.toNat < (x.num.toNat / x.den + 1) * x.den := by
    have h1 := Nat.div_add_mod x.num.toNat x.den
    have h2 := Nat.mod_lt x.num.toNat hdpos
    calc x.num.toNat = x.den * (x.num.toNat / x.den) + x.num.toNat % x.den :=
          h1.symm
      _ < x.den * (x.num.toNat / x.den) + x.den := by omega
      _ = (x.num.toNat / x.den + 1) * x.den := by ring
  calc x = (x.num.toNat : ℚ) / (x.den : ℚ) := (rat_toNat_div_den x hx).symm
    _ < ((x.num.toNat / x.den : ℕ) : ℚ) + 1 := by
        rw [div_lt_iff₀ hd]
        calc (x.num.toNat : ℚ)
            < (((x.num.toNat / x.den + 1) * x.den : ℕ) : ℚ) := by
              exact_mod_cast hnat
          _ = (((x.num.toNat / x.den : ℕ) : ℚ) + 1) * ((x.den : ℕ) : ℚ) := by
              push_cast; ring
    _ = ((((x.num.toNat / x.den : ℕ) : ℤ)) : ℚ) + 1 := by norm_cast

theorem stream_false (cs : List Chunk) (i : Nat) :
    elevenlabs_tts_stream (fun _ => false) cs i = cs := by
  induction cs generalizing i with
  | nil => rfl
  | cons c rest ih => simp [elevenlabs_tts_stream, ih]

theorem stream_setFrom (k : Nat) (cs : List Chunk) (i : Nat) :
    elevenlabs_tts_stream (setFrom k) cs i = cs.take (k - i) := by
  induction cs generalizing i with
  | nil => simp [elevenlabs_tts_stream]
  | cons c rest ih =>
    by_cases h : k ≤ i
    · have hz : k - i = 0 := Nat.sub_eq_zero_of_le h
      simp [elevenlabs_tts_stream, setFrom, h, hz]
    · have hlt : i < k := Nat.lt_of_not_le h
      have hs : k - i = (k - (i + 1)) + 1 := by omega
      simp [elevenlabs_tts_stream, setFrom, h, ih, hs]

theorem setFrom_refl (k : Nat) : setFrom k k = true := by
  simp [setFrom]

/-! ## C2: repeated barge_in while Live -/

/-- C2 counterexample: session created at time 1, `barge_in` at 2, a second
`barge_in` at 3, `barge_out` at 5.  The claim requires `live_seconds = 5 - 2
= 3` (one continuous interval from the first barge-in); the code resets the
open interval on the second `barge_in` and yields `5 - 3 = 2`. -/
theorem c2_counterexample :
    ((((CombatSession.init "s" 1).barge_in 2 none).barge_in 3
        (some "u")).barge_out 5).live_seconds = 2 ∧
      ¬ ((((CombatSession.init "s" 1).barge_in 2 none).barge_in 3
        (some "u")).barge_out 5).live_seconds = 3 := by
  have h : ((((CombatSession.init "s" 1).barge_in 2 none).barge_in 3
      (some "u")).barge_out 5).live_seconds = 2 := by
    simp [CombatSession.init, CombatSession.barge_in, CombatSession.barge_out,
      CombatSession.closeLive, qTruthy]
    norm_num
  refine ⟨h, ?_⟩
  rw [h]
  norm_num

/-- C2 (corrected): a further `barge_in` while already Live does *not* leave
the open interval alone: it unconditionally resets `barge_in_time` to the
current time, so after `barge_in` at `t1`, `barge_in` at `t2`, `barge_out`
at `t3` the accumulated `live_seconds` grows by `t3 - t2`, not `t3 - t1`. -/
theorem c2_theorem (s : CombatSession) (t1 t2 t3 : ℚ)
    (u1 u2 : Option String) (h2 : t2 ≠ 0) :
    (((s.barge_in t1 u1).barge_in t2 u2).barge_out t3).live_seconds =
        s.live_seconds + (t3 - t2) ∧
      ((s.barge_in t1 u1).barge_in t2 u2).barge_in_time = some t2 := by
  have htr : qTruthy (some t2) = true := by
    simp [qTruthy, h2]
  constructor
  · simp [CombatSession.barge_in, CombatSession.barge_out,
      CombatSession.closeLive, htr]
  · simp [CombatSession.barge_in]

/-- C2 witness: the corrected statement at session start 1, barge-ins at 2
and 3, barge-out at 5. -/
theorem c2_witness :
    (3 : ℚ) ≠ 0 ∧
      (((((CombatSession.init "s" 1).barge_in 2 none).barge_in 3
          (some "u")).barge_out 5).live_seconds =
        (CombatSession.init "s" 1).live_seconds + (5 - 3) ∧
      (((CombatSession.init "s" 1).barge_in 2 none).barge_in 3
          (some "u")).barge_in_time = some 3) :=
  ⟨by decide, c2_theorem (CombatSession.init "s" 1) 2 3 5 none (some "u")
    (by decide)⟩

/-! ## C3: triage failure handling -/

/-- C3 counterexample: a `combat` message whose triage oracle raises.  The
claim requires the failure to degrade to a default classification and the
cycle to proceed; the code lets `raise_for_status` propagate, so the request
aborts with no `streaming` status, no synthesis stream and no audio. -/
theorem c3_counterexample :
    handleMsg true sessionActive (Msg.combat "555-0000" "hello" "hazel")
        envTriageFail = ([], Except.error "triage down") ∧
      Event.streamOpen ∉
        (handleMsg true sessionActive (Msg.combat "555-0000" "hello" "hazel")
          envTriageFail).1 := by
  constructor
  · rfl
  · decide

/-- C3 (corrected): when the triage classification call fails, the exception
propagates out of the `combat` handler: the request is aborted before the
persona and synthesis steps, with no default classification substituted
(the error then terminates the whole message loop, cf. C1). -/
theorem c3_theorem (s : CombatSession) (caller transcript persona : String)
    (env : Env) (e : String) (h : env.triage = Except.error e) :
    handleMsg true s (Msg.combat caller transcript persona) env =
      ([], Except.error e) := by
  simp [handleMsg, h]

/-- C3 witness: the corrected statement on the concrete failing oracle. -/
theorem c3_witness :
    envTriageFail.triage = Except.error "triage down" ∧
      handleMsg true sessionActive (Msg.combat "1-800" "hi" "bertha")
        envTriageFail = ([], Except.error "triage down") :=
  ⟨rfl, c3_theorem sessionActive "1-800" "hi" "bertha" envTriageFail
    "triage down" rfl⟩

/-! ## C10: which operations touch the cancel signal -/

/-- C10 (confirmed): `barge_in` sets the session's cancel signal, `barge_out`
clears it (in addition to closing any truthy open Live interval), and `end`
leaves the signal untouched - among the state-machine operations only
`barge_in` and `barge_out` modify it. -/
theorem c10_theorem (s : CombatSession) (now : ℚ) (uid : Option String) :
    (s.barge_in now uid).cancel_event = true ∧
      (s.barge_out now).cancel_event = false ∧
      (s.barge_out now).live_seconds =
        (if qTruthy s.barge_in_time then
          s.live_seconds + (now - s.barge_in_time.getD 0)
         else s.live_seconds) ∧
      (s.barge_out now).barge_in_time =
        (if qTruthy s.barge_in_time then none else s.barge_in_time) ∧
      (s.endSession now).cancel_event = s.cancel_event := by
  refine ⟨rfl, rfl, ?_, ?_, ?_⟩
  · by_cases h : qTruthy s.barge_in_time <;>
      simp [CombatSession.barge_out, CombatSession.closeLive, h]
  · by_cases h : qTruthy s.barge_in_time <;>
      simp [CombatSession.barge_out, CombatSession.closeLive, h]
  · by_cases h : qTruthy s.barge_in_time <;>
      simp [CombatSession.endSession, CombatSession.closeLive, h]

/-! ## C7: end_session accounting -/

/-- C7 (confirmed): from any state observed at wall-clock `t` (no earlier
than session start), `end` first closes a truthy open Live interval (adding
`t - barge_in_time` to `live_seconds` and clearing `barge_in_time`), then
sets `auto_seconds` to the remaining elapsed time and marks the session
inactive; consequently `live_seconds + auto_seconds` equals exact elapsed
time and the whole-second `total_duration` matches it within 1 second. -/
theorem c7_theorem (s : CombatSession) (t : ℚ) (h : s.start_time ≤ t) :
    (s.endSession t).is_active = false ∧
      (s.endSession t).barge_in_time =
        (if qTruthy s.barge_in_time then none else s.barge_in_time) ∧
      (s.endSession t).live_seconds =
        (if qTruthy s.barge_in_time then
          s.live_seconds + (t - s.barge_in_time.getD 0)
         else s.live_seconds) ∧
      (s.endSession t).live_seconds + (s.endSession t).auto_seconds =
        t - s.start_time ∧
      ((s.endSession t).total_duration t : ℚ) ≤
        (s.endSession t).live_seconds + (s.endSession t).auto_seconds ∧
      (s.endSession t).live_seconds + (s.endSession t).auto_seconds <
        ((s.endSession t).total_duration t : ℚ) + 1 := by
  have hst : (s.closeLive t).start_time = s.start_time := by
    by_cases hq : qTruthy s.barge_in_time <;> simp [CombatSession.closeLive, hq]
  have hsum : (s.endSession t).live_seconds + (s.endSession t).auto_seconds =
      t - s.start_time := by
    simp [CombatSession.endSession, hst]
  have hnn : (0 : ℚ) ≤ t - s.start_time := by linarith
  have hdur : (s.endSession t).total_duration t = pyInt (t - s.start_time) := by
    simp [CombatSession.total_duration, CombatSession.endSession, hst]
  refine ⟨rfl, ?_, ?_, hsum, ?_, ?_⟩
  · by_cases hq : qTruthy s.barge_in_time <;>
      simp [CombatSession.endSession, CombatSession.closeLive, hq]
  · by_cases hq : qTruthy s.barge_in_time <;>
      simp [CombatSession.endSession, CombatSession.closeLive, hq]
  · rw [hsum, hdur]
    exact pyInt_le_self _ hnn
  · rw [hsum, hdur]
    exact lt_pyInt_add_one _ hnn

/-- C7 witness: the accounting identity on a session started at 1 with a
Live interval open since 2, ended at 7. -/
theorem c7_witness :
    sessionLive.start_time ≤ 7 ∧
      ((sessionLive.endSession 7).is_active = false ∧
      (sessionLive.endSession 7).barge_in_time =
        (if qTruthy sessionLive.barge_in_time then none
         else sessionLive.barge_in_time) ∧
      (sessionLive.endSession 7).live_seconds =
        (if qTruthy sessionLive.barge_in_time then
          sessionLive.live_seconds + (7 - sessionLive.barge_in_time.getD 0)
         else sessionLive.live_seconds) ∧
      (sessionLive.endSession 7).live_seconds +
          (sessionLive.endSession 7).auto_seconds =
        7 - sessionLive.start_time ∧
      ((sessionLive.endSession 7).total_duration 7 : ℚ) ≤
        (sessionLive.endSession 7).live_seconds +
          (sessionLive.endSession 7).auto_seconds ∧
      (sessionLive.endSession 7).live_seconds +
          (sessionLive.endSession 7).auto_seconds <
        ((sessionLive.endSession 7).total_duration 7 : ℚ) + 1) :=
  ⟨by decide, c7_theorem sessionLive 7 (by decide)⟩

/-! ## C8: disconnect while active -/

/-- C8 (confirmed): a transport disconnect while the session is active
performs the implicit `end` (closing a truthy open Live interval, marking
the session inactive) and dispatches exactly one scoring submission whose
`mode` is `"live"` iff `live_seconds > 0`; the Steward oracle's outcome
(`dresp`, including failure) never changes the emitted trace, and
`score_session` on a failing oracle returns `none` rather than raising. -/
theorem c8_theorem (cfg : Bool) (s : CombatSession) (dnow : ℚ)
    (dresp : Except String String) (err : String) (h : s.is_active = true) :
    ws_audio_stream cfg s [] dnow dresp =
      [Event.scoreSubmit (score_payload (s.endSession dnow) dnow)] ∧
      (score_payload (s.endSession dnow) dnow).mode =
        (if 0 < (s.endSession dnow).live_seconds then "live" else "auto") ∧
      (s.endSession dnow).barge_in_time =
        (if qTruthy s.barge_in_time then none else s.barge_in_time) ∧
      (s.endSession dnow).is_active = false ∧
      (score_session (s.endSession dnow) dnow (Except.error err)).2 = none := by
  refine ⟨?_, rfl, ?_, rfl, rfl⟩
  · simp [ws_audio_stream, h, score_session]
  · by_cases hq : qTruthy s.barge_in_time <;>
      simp [CombatSession.endSession, CombatSession.closeLive, hq]

/-- C8 witness: disconnect at time 5 of the live session, Steward down. -/
theorem c8_witness :
    sessionLive.is_active = true ∧
      (ws_audio_stream true sessionLive [] 5 (Except.error "down") =
        [Event.scoreSubmit (score_payload (sessionLive.endSession 5) 5)] ∧
      (score_payload (sessionLive.endSession 5) 5).mode =
        (if 0 < (sessionLive.endSession 5).live_seconds then "live"
         else "auto") ∧
      (sessionLive.endSession 5).barge_in_time =
        (if qTruthy sessionLive.barge_in_time then none
         else sessionLive.barge_in_time) ∧
      (sessionLive.endSession 5).is_active = false ∧
      (score_session (sessionLive.endSession 5) 5
        (Except.error "down")).2 = none) :=
  ⟨rfl, c8_theorem true sessionLive 5 (Except.error "down") "down" rfl⟩

/-! ## C9: empty text to speak -/

/-- C9 (confirmed): a `tts` message with empty text, or a `combat` message
whose persona response comes back empty, yields the explicit validation
error `No text provided`, forwards zero audio chunks and opens no synthesis
stream (no `streamOpen`, no `audio` event in the emitted trace). -/
theorem c9_theorem (s : CombatSession) (env : Env)
    (caller transcript persona tri : String)
    (htri : env.triage = Except.ok tri) (hact : env.actor = Except.ok "") :
    handleMsg true s (Msg.tts "") env =
      ([Event.errorEvent "No text provided"], Except.ok s) ∧
      handleMsg true s (Msg.combat caller transcript persona) env =
        ([Event.json "streaming", Event.errorEvent "No text provided"],
         Except.ok { s with caller_number := caller, persona := persona }) := by
  constructor
  · simp [handleMsg]
  · simp [handleMsg, htri, hact]

/-- C9 witness: both empty-text shapes on the concrete empty-actor oracle. -/
theorem c9_witness :
    envEmptyActor.triage = Except.ok "scam_likely" ∧
      envEmptyActor.actor = Except.ok "" ∧
      (handleMsg true sessionActive (Msg.tts "") envEmptyActor =
        ([Event.errorEvent "No text provided"], Except.ok sessionActive) ∧
      handleMsg true sessionActive
          (Msg.combat "555-0000" "hello" "hazel") envEmptyActor =
        ([Event.json "streaming", Event.errorEvent "No text provided"],
         Except.ok { sessionActive with
           caller_number := "555-0000", persona := "hazel" })) :=
  ⟨rfl, rfl,
    c9_theorem sessionActive envEmptyActor "555-0000" "hello" "hazel"
      "scam_likely" rfl rfl⟩

/-! ## C6: cancel signal cleared at stream start -/

/-- C6 (confirmed): the handler clears the session's cancel signal before
streaming begins (line 382), so a `tts` or `combat` request on a session
whose signal is still set from a prior barge-in, with no new barge-in during
the stream, forwards every chunk and completes with `done`; the resulting
session has the signal cleared. -/
theorem c6_theorem (s : CombatSession) (env : Env)
    (text tri atext caller transcript persona : String) (cs : List Chunk)
    (_hprev : s.cancel_event = true) (ht : text ≠ "")
    (hc : env.chunks = Except.ok cs) (he : env.ext = fun _ => false)
    (htri : env.triage = Except.ok tri) (hact : env.actor = Except.ok atext)
    (hat : atext ≠ "") :
    handleMsg true s (Msg.tts text) env =
      (Event.streamOpen :: cs.map Event.audio ++ [Event.json "done"],
       Except.ok { s with cancel_event := false }) ∧
      handleMsg true s (Msg.combat caller transcript persona) env =
        (Event.json "streaming" :: Event.streamOpen :: cs.map Event.audio ++
            [Event.json "done"],
         Except.ok { s with caller_number := caller, persona := persona, cancel_event := false }) := by
  constructor
  · simp [handleMsg, ht, hc, he, speakPhase, CombatSession.cancelled,
      stream_false]
  · simp [handleMsg, htri, hact, hat, hc, he, speakPhase,
      CombatSession.cancelled, stream_false]

/-- C6 witness: a healthy stream of three chunks on a session whose cancel
signal is still set. -/
theorem c6_witness :
    sessionCancelled.cancel_event = true ∧ "hi" ≠ "" ∧
      envOk.chunks = Except.ok [1, 2, 3] ∧
      envOk.ext = (fun _ => false) ∧
      envOk.triage = Except.ok "scam_likely" ∧
      envOk.actor = Except.ok "hello there" ∧ "hello there" ≠ "" ∧
      (handleMsg true sessionCancelled (Msg.tts "hi") envOk =
        (Event.streamOpen :: ([1, 2, 3] : List Chunk).map Event.audio ++
            [Event.json "done"],
         Except.ok { sessionCancelled with cancel_event := false }) ∧
      handleMsg true sessionCancelled
          (Msg.combat "555-0000" "hello" "hazel") envOk =
        (Event.json "streaming" :: Event.streamOpen ::
            ([1, 2, 3] : List Chunk).map Event.audio ++ [Event.json "done"],
         Except.ok { sessionCancelled with
           caller_number := "555-0000", persona := "hazel",
           cancel_event := false })) :=
  ⟨rfl, by decide, rfl, rfl, rfl, rfl, by decide,
    c6_theorem sessionCancelled envOk "hi" "scam_likely" "hello there"
      "555-0000" "hello" "hazel" [1, 2, 3] rfl (by decide) rfl rfl rfl rfl
      (by decide)⟩

/-! ## C5: cancellation mid-stream -/

/-- C5 (confirmed): when the cancel signal becomes set at the `k`-th
per-chunk check of a stream of `cs` chunks (`k ≤ cs.length`), forwarding
stops there - exactly the first `k` chunks are sent, no chunk after the
signal is observed set - and the request reports `stream_interrupted`,
never `done`; the session keeps the signal set. -/
theorem c5_theorem (s : CombatSession) (env : Env) (text : String)
    (cs : List Chunk) (k : Nat) (ht : text ≠ "")
    (hc : env.chunks = Except.ok cs) (he : env.ext = setFrom k)
    (hk : k ≤ cs.length) :
    handleMsg true s (Msg.tts text) env =
      (Event.streamOpen :: (cs.take k).map Event.audio ++
          [Event.json "stream_interrupted"],
       Except.ok { s with cancel_event := true }) ∧
      Event.json "done" ∉ (handleMsg true s (Msg.tts text) env).1 := by
  have hmin : min k cs.length = k := Nat.min_eq_left hk
  have hstream : elevenlabs_tts_stream (setFrom k) cs 0 = cs.take k := by
    rw [stream_setFrom]
    simp
  have h1 : handleMsg true s (Msg.tts text) env =
      (Event.streamOpen :: (cs.take k).map Event.audio ++
          [Event.json "stream_interrupted"],
       Except.ok { s with cancel_event := true }) := by
    simp [handleMsg, ht, hc, he, speakPhase, CombatSession.cancelled,
      hstream, List.length_take, hmin, setFrom_refl]
  refine ⟨h1, ?_⟩
  rw [h1]
  intro hmem
  simp at hmem
  exact absurd (List.take_subset _ _ hmem) (by simp)

/-- C5 witness: signal set from the second check of a three-chunk stream -
one chunk forwarded, `stream_interrupted` reported. -/
theorem c5_witness :
    "hi" ≠ "" ∧ envCancelAt1.chunks = Except.ok [1, 2, 3] ∧
      envCancelAt1.ext = setFrom 1 ∧
      1 ≤ ([1, 2, 3] : List Chunk).length ∧
      (handleMsg true sessionActive (Msg.tts "hi") envCancelAt1 =
        (Event.streamOpen ::
            (([1, 2, 3] : List Chunk).take 1).map Event.audio ++
            [Event.json "stream_interrupted"],
         Except.ok { sessionActive with cancel_event := true }) ∧
      Event.json "done" ∉
        (handleMsg true sessionActive (Msg.tts "hi") envCancelAt1).1) :=
  ⟨by decide, rfl, rfl, by decide,
    c5_theorem sessionActive envCancelAt1 "hi" [1, 2, 3] 1 (by decide) rfl
      rfl (by decide)⟩

/-! ## C1: error handling in the message loop -/

/-- C1 counterexample: a `combat` message whose triage call raises, followed
by a `barge_in` message.  The claim requires the loop to continue and the
follow-up `barge_in` to be acknowledged; the code's `try` wraps the whole
loop, so the error event is the final output and the second message is never
processed. -/
theorem c1_counterexample :
    ws_audio_stream true sessionActive
        [(Msg.combat "555-0000" "hello" "hazel", envTriageFail),
         (Msg.barge_in (some "alice"), envOk)] 100 (Except.ok "r") =
      [Event.errorEvent "triage down"] ∧
      Event.json "barge_in_ack" ∉
        ws_audio_stream true sessionActive
          [(Msg.combat "555-0000" "hello" "hazel", envTriageFail),
           (Msg.barge_in (some "alice"), envOk)] 100 (Except.ok "r") := by
  constructor
  · rfl
  · decide

/-- C1 (corrected): when handling one message raises, the failure is caught
by the handler wrapping the whole loop and reported as an error event, but
the loop does *not* continue: the remaining messages are never processed and
the connection handler exits (with no disconnect-path scoring). -/
theorem c1_theorem (cfg : Bool) (s : CombatSession) (m : Msg) (env : Env)
    (e : String) (rest : List (Msg × Env)) (dnow : ℚ)
    (dresp : Except String String)
    (h : (handleMsg cfg s m env).2 = Except.error e) :
    ws_audio_stream cfg s ((m, env) :: rest) dnow dresp =
      (handleMsg cfg s m env).1 ++ [Event.errorEvent e] := by
  rcases hp : handleMsg cfg s m env with ⟨evs, r⟩
  rw [hp] at h
  cases r with
  | ok s1 => simp at h
  | error e1 =>
    have he1 : e1 = e := by simpa using h
    subst he1
    simp [ws_audio_stream, hp]

/-- C1 witness: the corrected behaviour on the concrete failing triage
oracle with one further message pending. -/
theorem c1_witness :
    (handleMsg true sessionActive (Msg.combat "1-900" "yo" "bertha")
        envTriageFail).2 = Except.error "triage down" ∧
      ws_audio_stream true sessionActive
          [(Msg.combat "1-900" "yo" "bertha", envTriageFail),
           (Msg.end_session, envOk)] 50 (Except.ok "r") =
        (handleMsg true sessionActive (Msg.combat "1-900" "yo" "bertha")
          envTriageFail).1 ++ [Event.errorEvent "triage down"] :=
  ⟨rfl,
    c1_theorem true sessionActive (Msg.combat "1-900" "yo" "bertha")
      envTriageFail "triage down" [(Msg.end_session, envOk)] 50
      (Except.ok "r") rfl⟩

/-! ## C4: time-accounting invariants over operation sequences -/

theorem inv_init (sid : String) (t0 : ℚ) :
    Inv (CombatSession.init sid t0) t0 := by
  refine ⟨le_refl t0, Or.inl ⟨rfl, ?_⟩⟩
  simp [CombatSession.init]

theorem inv_step (s : CombatSession) (op : SessionOp) (t t1 : ℚ)
    (h : Inv s t) (h1 : t ≤ t1) (h2 : 0 < t1) :
    Inv (applyOp s op t1) t1 ∧
      s.live_seconds ≤ (applyOp s op t1).live_seconds := by
  obtain ⟨hst, hcase⟩ := h
  have hlive_le : s.live_seconds ≤ t - s.start_time := by
    rcases hcase with ⟨_, hle⟩ | ⟨b, _, _, hbt1, hle⟩
    · exact hle
    · linarith
  cases op with
  | bargeIn uid =>
    refine ⟨⟨?_, Or.inr ⟨t1, ?_, h2, le_refl t1, ?_⟩⟩, ?_⟩
    · simpa [applyOp, CombatSession.barge_in] using le_trans hst h1
    · simp [applyOp, CombatSession.barge_in]
    · simp [applyOp, CombatSession.barge_in]
      linarith
    · simp [applyOp, CombatSession.barge_in]
  | bargeOut =>
    rcases hcase with ⟨hbt, hle⟩ | ⟨b, hbt, hb0, hbt1, hle⟩
    · refine ⟨⟨?_, Or.inl ⟨?_, ?_⟩⟩, ?_⟩
      · simpa [applyOp, CombatSession.barge_out, CombatSession.closeLive,
          hbt, qTruthy] using le_trans hst h1
      · simp [applyOp, CombatSession.barge_out, CombatSession.closeLive,
          hbt, qTruthy]
      · simp [applyOp, CombatSession.barge_out, CombatSession.closeLive,
          hbt, qTruthy]
        linarith
      · simp [applyOp, CombatSession.barge_out, CombatSession.closeLive,
          hbt, qTruthy]
    · have hbne : b ≠ 0 := ne_of_gt hb0
      refine ⟨⟨?_, Or.inl ⟨?_, ?_⟩⟩, ?_⟩
      · simpa [applyOp, CombatSession.barge_out, CombatSession.closeLive,
          hbt, qTruthy, hbne] using le_trans hst h1
      · simp [applyOp, CombatSession.barge_out, CombatSession.closeLive,
          hbt, qTruthy, hbne]
      · simp [applyOp, CombatSession.barge_out, CombatSession.closeLive,
          hbt, qTruthy, hbne]
        linarith
      · simp [applyOp, CombatSession.barge_out, CombatSession.closeLive,
          hbt, qTruthy, hbne]
        linarith
  | endOp =>
    rcases hcase with ⟨hbt, hle⟩ | ⟨b, hbt, hb0, hbt1, hle⟩
    · refine ⟨⟨?_, Or.inl ⟨?_, ?_⟩⟩, ?_⟩
      · simpa [applyOp, CombatSession.endSession, CombatSession.closeLive,
          hbt, qTruthy] using le_trans hst h1
      · simp [applyOp, CombatSession.endSession, CombatSession.closeLive,
          hbt, qTruthy]
      · simp [applyOp, CombatSession.endSession, CombatSession.closeLive,
          hbt, qTruthy]
        linarith
      · simp [applyOp, CombatSession.endSession, CombatSession.closeLive,
          hbt, qTruthy]
    · have hbne : b ≠ 0 := ne_of_gt hb0
      refine ⟨⟨?_, Or.inl ⟨?_, ?_⟩⟩, ?_⟩
      · simpa [applyOp, CombatSession.endSession, CombatSession.closeLive,
          hbt, qTruthy, hbne] using le_trans hst h1
      · simp [applyOp, CombatSession.endSession, CombatSession.closeLive,
          hbt, qTruthy, hbne]
      · simp [applyOp, CombatSession.endSession, CombatSession.closeLive,
          hbt, qTruthy, hbne]
        linarith
      · simp [applyOp, CombatSession.endSession, CombatSession.closeLive,
          hbt, qTruthy, hbne]
        linarith

theorem inv_run (s : CombatSession) (t : ℚ) (l : List (SessionOp × ℚ))
    (h : Inv s t) (hts : timesOk t l = true) :
    Inv (runOps s l) (finalTime t l) ∧
      s.live_seconds ≤ (runOps s l).live_seconds := by
  induction l generalizing s t with
  | nil => exact ⟨h, le_refl _⟩
  | cons p rest ih =>
    obtain ⟨op, t1⟩ := p
    simp only [timesOk, Bool.and_eq_true, decide_eq_true_eq] at hts
    obtain ⟨⟨h1, h2⟩, hrest⟩ := hts
    have hstep := inv_step s op t t1 h h1 h2
    have hih := ih (applyOp s op t1) t1 hstep.1 hrest
    refine ⟨by simpa [runOps, finalTime] using hih.1, ?_⟩
    exact le_trans hstep.2 (by simpa [runOps] using hih.2)

theorem runOps_append (s : CombatSession) (l1 l2 : List (SessionOp × ℚ)) :
    runOps s (l1 ++ l2) = runOps (runOps s l1) l2 := by
  induction l1 generalizing s with
  | nil => rfl
  | cons p rest ih =>
    obtain ⟨op, t⟩ := p
    simp [runOps, ih]

theorem timesOk_append (t : ℚ) (l1 l2 : List (SessionOp × ℚ))
    (h : timesOk t (l1 ++ l2) = true) :
    timesOk t l1 = true ∧ timesOk (finalTime t l1) l2 = true := by
  induction l1 generalizing t with
  | nil => exact ⟨rfl, h⟩
  | cons p rest ih =>
    obtain ⟨op, t1⟩ := p
    simp only [List.cons_append, timesOk, Bool.and_eq_true,
      decide_eq_true_eq] at h
    obtain ⟨hh, hrest⟩ := h
    have hr := ih t1 hrest
    refine ⟨?_, by simpa [finalTime] using hr.2⟩
    simp only [timesOk, Bool.and_eq_true, decide_eq_true_eq]
    exact ⟨hh, hr.1⟩

theorem inv_total_bound (s : CombatSession) (t : ℚ) (h : Inv s t) :
    s.live_seconds - 1 < ((s.total_duration t : ℤ) : ℚ) := by
  obtain ⟨hst, hcase⟩ := h
  have hlive : s.live_seconds ≤ t - s.start_time := by
    rcases hcase with ⟨_, hle⟩ | ⟨b, _, _, hbt1, hle⟩
    · exact hle
    · linarith
  have hnn : (0 : ℚ) ≤ t - s.start_time := by linarith
  have hbd := lt_pyInt_add_one (t - s.start_time) hnn
  simp only [CombatSession.total_duration]
  linarith

/-- C4 counterexample: start the session at time 1, `barge_in` at 1,
`barge_out` at 1.9.  Then `live_seconds = 0.9` while `total_duration`
observed at 1.9 is `int(0.9) = 0`: the claimed `total_duration ≥
live_seconds` fails (the timestamps form a legitimate non-decreasing
positive sequence). -/
theorem c4_counterexample :
    timesOk 1 [(SessionOp.bargeIn none, 1), (SessionOp.bargeOut, 19/10)] =
        true ∧
      ¬ ((runOps (CombatSession.init "s" 1)
            [(SessionOp.bargeIn none, 1),
             (SessionOp.bargeOut, 19/10)]).live_seconds ≤
          (((runOps (CombatSession.init "s" 1)
            [(SessionOp.bargeIn none, 1),
             (SessionOp.bargeOut, 19/10)]).total_duration (19/10) : ℤ) : ℚ)) := by
  have hto : timesOk 1
      [(SessionOp.bargeIn none, 1), (SessionOp.bargeOut, (19 : ℚ)/10)] =
      true := by
    simp [timesOk]
    norm_num
  refine ⟨hto, ?_⟩
  have hlive : (runOps (CombatSession.init "s" 1)
      [(SessionOp.bargeIn none, 1),
       (SessionOp.bargeOut, 19/10)]).live_seconds = 9/10 := by
    simp [runOps, applyOp, CombatSession.init, CombatSession.barge_in,
      CombatSession.barge_out, CombatSession.closeLive, qTruthy]
    norm_num
  have hstart : (runOps (CombatSession.init "s" 1)
      [(SessionOp.bargeIn none, 1),
       (SessionOp.bargeOut, 19/10)]).start_time = 1 := by
    simp [runOps, applyOp, CombatSession.init, CombatSession.barge_in,
      CombatSession.barge_out, CombatSession.closeLive, qTruthy]
  have hdur : (runOps (CombatSession.init "s" 1)
      [(SessionOp.bargeIn none, 1),
       (SessionOp.bargeOut, 19/10)]).total_duration (19/10) =
      pyInt (9/10) := by
    simp only [CombatSession.total_duration, hstart]
    norm_num
  rw [hlive, hdur]
  intro hcon
  have hle : (pyInt ((9 : ℚ)/10) : ℚ) ≤ 9/10 :=
    pyInt_le_self _ (by norm_num)
  rcases le_or_lt (pyInt ((9 : ℚ)/10)) 0 with hz | hz
  · have : ((pyInt ((9 : ℚ)/10) : ℤ) : ℚ) ≤ 0 := by exact_mod_cast hz
    linarith
  · have : (1 : ℚ) ≤ ((pyInt ((9 : ℚ)/10) : ℤ) : ℚ) := by exact_mod_cast hz
    linarith

/-- C4 (corrected): over any sequence of `barge_in`/`barge_out`/`end`
operations at non-decreasing positive timestamps, `live_seconds` is
monotonically non-decreasing (every prefix accounts at most the full run);
and at the final observation `total_duration` exceeds `live_seconds - 1`
(the exact claim `total_duration ≥ live_seconds` can fail by the fractional
part lost to whole-second truncation, cf. the counterexample). -/
theorem c4_theorem (sid : String) (t0 : ℚ)
    (ops pre suf : List (SessionOp × ℚ)) (hsplit : ops = pre ++ suf)
    (hts : timesOk t0 ops = true) :
    (runOps (CombatSession.init sid t0) pre).live_seconds ≤
        (runOps (CombatSession.init sid t0) ops).live_seconds ∧
      (runOps (CombatSession.init sid t0) ops).live_seconds - 1 <
        (((runOps (CombatSession.init sid t0) ops).total_duration
          (finalTime t0 ops) : ℤ) : ℚ) := by
  have h0 := inv_init sid t0
  have hfull := inv_run _ t0 ops h0 hts
  refine ⟨?_, inv_total_bound _ _ hfull.1⟩
  subst hsplit
  obtain ⟨hpre, hsuf⟩ := timesOk_append t0 pre suf hts
  have hrunpre := inv_run _ t0 pre h0 hpre
  have hrunsuf := inv_run _ (finalTime t0 pre) suf hrunpre.1 hsuf
  rw [runOps_append]
  exact hrunsuf.2

/-- C4 witness: the corrected statement on the two-operation run
`barge_in` at 2, `barge_out` at 3 from a session started at 1, split after
the first operation. -/
theorem c4_witness :
    [(SessionOp.bargeIn none, (2 : ℚ)), (SessionOp.bargeOut, 3)] =
        [(SessionOp.bargeIn none, (2 : ℚ))] ++ [(SessionOp.bargeOut, 3)] ∧
      timesOk 1 [(SessionOp.bargeIn none, (2 : ℚ)),
        (SessionOp.bargeOut, 3)] = true ∧
      ((runOps (CombatSession.init "w" 1)
          [(SessionOp.bargeIn none, (2 : ℚ))]).live_seconds ≤
        (runOps (CombatSession.init "w" 1)
          [(SessionOp.bargeIn none, (2 : ℚ)),
           (SessionOp.bargeOut, 3)]).live_seconds ∧
      (runOps (CombatSession.init "w" 1)
          [(SessionOp.bargeIn none, (2 : ℚ)),
           (SessionOp.bargeOut, 3)]).live_seconds - 1 <
        (((runOps (CombatSession.init "w" 1)
            [(SessionOp.bargeIn none, (2 : ℚ)),
             (SessionOp.bargeOut, 3)]).total_duration
          (finalTime 1 [(SessionOp.bargeIn none, (2 : ℚ)),
            (SessionOp.bargeOut, 3)]) : ℤ) : ℚ)) :=
  ⟨rfl, by decide,
    c4_theorem "w" 1
      [(SessionOp.bargeIn none, (2 : ℚ)), (SessionOp.bargeOut, 3)]
      [(SessionOp.bargeIn none, (2 : ℚ))] [(SessionOp.bargeOut, 3)] rfl
      (by decide)⟩

end DojoBridge
